import Mathlib

/-!
Verification of the playback-queue controller
(`src/music_assistant/controllers/player_queues.py`).

The Python controller is shallowly embedded: pure computations become Lean
functions, the per-queue mutable state (`self._queues[queue_id]`,
`self._queue_items[queue_id]`) becomes an explicit `PlayerQueue × List QueueItem`
pair threaded through the operations, Python exceptions become `Except`
results, and the `random.sample` calls become explicit permutation/sampler
parameters constrained by hypotheses.  Python `x or y` truthiness (where both
`None` and `0` are falsy) is modelled by dedicated helpers.
-/

/-- Repeat mode of a queue (`music_assistant_models.enums.RepeatMode`). -/
inductive RepeatMode where
  | off
  | one
  | all
deriving DecidableEq, Repr

/-- Player state (`music_assistant_models.enums.PlayerState`). -/
inductive PlayerState where
  | idle
  | playing
  | paused
deriving DecidableEq, Repr

/-- Stream details attached lazily to a queue item; only the fields read by
the queue controller are modelled. -/
structure StreamDetails where
  seek_position : Int := 0
  sd_duration : Option Int := none
deriving DecidableEq, Repr

/-- A queue item (`music_assistant_models.queue_item.QueueItem`); only the
fields read by the controller are modelled.  `media_available = none` models a
bare stream without an underlying media item; `some b` models a media item
whose `available` flag is `b`. -/
structure QueueItem where
  queue_id : String := ""
  queue_item_id : String
  sort_index : Nat := 0
  duration : Option Int := none
  media_available : Option Bool := none
  streamdetails : Option StreamDetails := none
deriving DecidableEq, Repr

/-- One entry of the flow-mode stream log. -/
structure PlayLogEntry where
  queue_item_id : String
  seconds_streamed : Option Int := none
  log_duration : Option Int := none
deriving DecidableEq, Repr

/-- The per-queue state (`music_assistant_models.player_queue.PlayerQueue`);
only the fields read or written by the embedded operations are modelled. -/
structure PlayerQueue where
  shuffle_enabled : Bool := false
  repeat_mode : RepeatMode := RepeatMode.off
  dont_stop_the_music_enabled : Bool := false
  state : PlayerState := PlayerState.idle
  current_index : Option Nat := none
  index_in_buffer : Option Nat := none
  current_item : Option QueueItem := none
  elapsed_time : Int := 0
  resume_pos : Int := 0
  radio_source : List String := []
  enqueued_media_items : List String := []
  next_track_enqueued : Option String := none
  items : Nat := 0
  flow_mode_stream_log : List PlayLogEntry := []
deriving DecidableEq, Repr

/-- Python `x or d` for an optional integer `x` where both `None` and `0` are
falsy. -/
def pyOrInt (x : Option Int) (d : Int) : Int :=
  match x with
  | some n => if n = 0 then d else n
  | none => d

/-- Python `x or d` for an optional natural `x` where both `None` and `0` are
falsy. -/
def pyOrNat (x : Option Nat) (d : Nat) : Nat :=
  match x with
  | some n => if n = 0 then d else n
  | none => d

/-- Python `x or y` where both operands are optional naturals (`None` and `0`
are falsy). -/
def pyOrOpt (x : Option Nat) (y : Option Nat) : Option Nat :=
  match x with
  | some n => if n = 0 then y else some n
  | none => y

/-- A Python exception escaping one of the embedded operations. -/
inductive PyError where
  | indexError (msg : String)
  | typeError
  | nameError
deriving DecidableEq, Repr

/-- Decidable equality for `Except` results, so witnesses can be checked by
evaluation. -/
instance {ε α : Type} [DecidableEq ε] [DecidableEq α] : DecidableEq (Except ε α) :=
  fun a b =>
    match a, b with
    | .error x, .error y =>
      if h : x = y then .isTrue (by rw [h])
      else .isFalse (by intro hh; injection hh; exact h (by assumption))
    | .ok x, .ok y =>
      if h : x = y then .isTrue (by rw [h])
      else .isFalse (by intro hh; injection hh; exact h (by assumption))
    | .error _, .ok _ => .isFalse (by intro hh; injection hh)
    | .ok _, .error _ => .isFalse (by intro hh; injection hh)

/-- `index_by_id` (player_queues.py:1301): index of the item with the given
`queue_item_id`, or `None`. -/
def index_by_id (queue_items : List QueueItem) (queue_item_id : String) : Option Nat :=
  queue_items.findIdx? (fun item => item.queue_item_id = queue_item_id)

/-- `get_item` (player_queues.py:1264), integer branch: the item at the given
index if it is within bounds. -/
def get_item (queue_items : List QueueItem) (index : Option Nat) : Option QueueItem :=
  match index with
  | none => none
  | some i => if queue_items.length > i then queue_items[i]? else none

/-- `update_items` (player_queues.py:1255): atomically replace the stored item
list, refresh the item count, and reset the `next_track_enqueued`
deduplication marker. -/
def update_items (queue : PlayerQueue) (queue_items : List QueueItem) :
    PlayerQueue × List QueueItem :=
  ({ queue with items := queue_items.length, next_track_enqueued := none }, queue_items)

/-- `_get_next_index` (player_queues.py:1491): next index for the queue,
accounting for repeat settings. -/
def get_next_index (queue : PlayerQueue) (queue_items : List QueueItem)
    (cur_index : Option Nat) (is_skip : Bool := false) (allow_repeat : Bool := true) :
    Option Nat :=
  match cur_index with
  | none => none
  | some ci =>
    if queue_items.isEmpty then
      none
    else if queue.repeat_mode = RepeatMode.one ∧ is_skip = false then
      if allow_repeat then some ci else none
    else if ci ≥ queue_items.length - 1 then
      if allow_repeat ∧ queue.repeat_mode = RepeatMode.all then some 0 else none
    else
      some (ci + 1)

/-- The in-place `item.sort_index += insert_at_index + index` loop of `load`
(player_queues.py:1248), as a recursive function carrying the running
enumeration index. -/
def bump_sort_index (insert_at_index : Nat) (index : Nat) :
    List QueueItem → List QueueItem
  | [] => []
  | item :: rest =>
    { item with sort_index := item.sort_index + insert_at_index + index }
      :: bump_sort_index insert_at_index (index + 1) rest

/-- `load` (player_queues.py:1223): splice `queue_items` into the stored list
at `insert_at_index`.  The `random.sample(next_items, len(next_items))`
shuffle is modelled by the `perm` parameter (constrained to be a permutation
in the theorems). -/
def load (queue : PlayerQueue) (stored_items : List QueueItem)
    (queue_items : List QueueItem) (insert_at_index : Nat := 0)
    (keep_remaining : Bool := true) (keep_played : Bool := true)
    (shuffle : Bool := false)
    (perm : List QueueItem → List QueueItem := id) :
    PlayerQueue × List QueueItem :=
  let prev_items := if keep_played then stored_items.take insert_at_index else []
  let next_items :=
    queue_items ++ (if keep_remaining then stored_items.drop insert_at_index else [])
  let next_items := bump_sort_index insert_at_index 0 next_items
  let next_items := if shuffle then perm next_items else next_items
  update_items queue (prev_items ++ next_items)

/-- Python `list.insert(i, a)`: clamps an index beyond the end to an
append. -/
def pyInsert (i : Nat) (a : QueueItem) (l : List QueueItem) : List QueueItem :=
  l.insertIdx (min i l.length) a

/-- `move_item` (player_queues.py:534).  A comparison of `None` with an
integer raises `TypeError`; an already-buffered index raises `IndexError`;
an out-of-range target index is a silent no-op. -/
def move_item (queue : PlayerQueue) (queue_items : List QueueItem)
    (queue_item_id : String) (pos_shift : Int := 1) :
    Except PyError (PlayerQueue × List QueueItem) :=
  match index_by_id queue_items queue_item_id, queue.index_in_buffer with
  | none, _ => .error .typeError
  | some _, none => .error .typeError
  | some item_index, some buffer_index =>
    if item_index ≤ buffer_index then
      .error (.indexError s!"{item_index} is already played/buffered")
    else
      let new_index : Int :=
        if pos_shift = 0 ∧ queue.state = PlayerState.playing then
          (pyOrNat queue.current_index 0 : Int) + 1
        else if pos_shift = 0 then
          (pyOrNat queue.current_index 0 : Int)
        else
          (item_index : Int) + pos_shift
      if new_index < (pyOrNat queue.current_index 0 : Int) ∨
          new_index > (queue_items.length : Int) then
        .ok (queue, queue_items)
      else
        match queue_items[item_index]? with
        | none => .error (.indexError "pop index out of range")
        | some moved =>
          let remaining := queue_items.eraseIdx item_index
          .ok (update_items queue (pyInsert new_index.toNat moved remaining))

/-- The `item_id_or_index` argument of `delete_item` (an `int | str` in
Python). -/
inductive ItemRef where
  | byId (s : String)
  | byIndex (i : Int)
deriving DecidableEq, Repr

/-- Python `list.pop(i)`: supports negative indices, raises `IndexError` when
out of range. -/
def pyPop (l : List QueueItem) (i : Int) : Except PyError (List QueueItem) :=
  let j : Int := if i < 0 then (l.length : Int) + i else i
  if 0 ≤ j ∧ j < (l.length : Int) then
    .ok (l.eraseIdx j.toNat)
  else
    .error (.indexError "pop index out of range")

/-- `delete_item` (player_queues.py:566).  A delete of an index at or before
`index_in_buffer` is a logged no-op. -/
def delete_item (queue : PlayerQueue) (queue_items : List QueueItem)
    (item_id_or_index : ItemRef) : Except PyError (PlayerQueue × List QueueItem) :=
  let item_index : Option Int :=
    match item_id_or_index with
    | .byId s =>
      match index_by_id queue_items s with
      | some n => some (n : Int)
      | none => none
    | .byIndex i => some i
  match queue.index_in_buffer with
  | some buffer_index =>
    match item_index with
    | none => .error .typeError
    | some ii =>
      if ii ≤ (buffer_index : Int) then
        .ok (queue, queue_items)
      else
        (pyPop queue_items ii).map (fun l => update_items queue l)
  | none =>
    match item_index with
    | none => .error .typeError
    | some ii => (pyPop queue_items ii).map (fun l => update_items queue l)

/-- `clear` (player_queues.py:583): reset playback position fields and replace
the item list with the empty list (the async `stop` command sent to the device
is an external call and is not modelled). -/
def clear (queue : PlayerQueue) : PlayerQueue × List QueueItem :=
  let queue := { queue with
    radio_source := []
    current_index := none
    current_item := none
    elapsed_time := 0
    index_in_buffer := none }
  update_items queue []

/-- `set_shuffle` (player_queues.py:302).  `queue.index_in_buffer or
queue.current_index` follows Python truthiness (`None` and `0` falsy); the
stable `list.sort(key=lambda x: x.sort_index)` is `List.mergeSort`. -/
def set_shuffle (queue : PlayerQueue) (queue_items : List QueueItem)
    (shuffle_enabled : Bool) (perm : List QueueItem → List QueueItem := id) :
    PlayerQueue × List QueueItem :=
  if queue.shuffle_enabled = shuffle_enabled then
    (queue, queue_items)
  else
    let queue := { queue with shuffle_enabled := shuffle_enabled }
    let cur_index := pyOrOpt queue.index_in_buffer queue.current_index
    let (next_index, next_items) :=
      match cur_index with
      | some ci => (ci + 1, queue_items.drop (ci + 1))
      | none => (0, ([] : List QueueItem))
    let next_items :=
      if shuffle_enabled = false then
        next_items.mergeSort (fun a b => a.sort_index ≤ b.sort_index)
      else
        next_items
    load queue queue_items next_items next_index false true shuffle_enabled perm

/-- `transfer_queue` (player_queues.py:810), state-transition part: copy the
queue configuration to the target, clear the source, load the source items
into the target and re-store them with the target's queue id.  The device
power/sync commands and the optional `resume` are external calls and are not
modelled. -/
def transfer_queue (source target : PlayerQueue)
    (source_items target_items : List QueueItem) (target_queue_id : String) :
    (PlayerQueue × List QueueItem) × (PlayerQueue × List QueueItem) :=
  let target := { target with
    repeat_mode := source.repeat_mode
    shuffle_enabled := source.shuffle_enabled
    dont_stop_the_music_enabled := source.dont_stop_the_music_enabled
    radio_source := source.radio_source
    enqueued_media_items := source.enqueued_media_items
    resume_pos := source.elapsed_time
    current_index := source.current_index
    current_item :=
      match source.current_item with
      | some it => some { it with queue_id := target_queue_id }
      | none => target.current_item }
  let source_result := clear source
  let (target, loaded) := load target target_items source_items 0 false false false id
  let final_items := loaded.map (fun it => { it with queue_id := target_queue_id })
  (source_result, update_items target final_items)

/-- The effective duration of a play-log entry
(player_queues.py:1739-1744): the actually streamed seconds if known
(`seconds_streamed` may be `0` after a stream error and is still used), else
`duration or 3600*24*7` with Python truthiness. -/
def effective_duration (e : PlayLogEntry) : Int :=
  match e.seconds_streamed with
  | some s => s
  | none => pyOrInt e.log_duration (3600 * 24 * 7)

/-- The seek compensation looked up for a matched play-log entry
(player_queues.py:1752-1757). -/
def log_entry_seek (queue_items : List QueueItem) (e : PlayLogEntry) : Int :=
  match get_item queue_items (index_by_id queue_items e.queue_item_id) with
  | some item =>
    match item.streamdetails with
    | some sd => sd.seek_position
    | none => 0
  | none => 0

/-- The play-log traversal loop of `_get_flow_queue_stream_index`
(player_queues.py:1738-1759), carrying the running `played_time`
accumulator.  When the log is exhausted the initial
`queue_index = queue.current_index or 0` and `track_time = 0` are
returned. -/
def flow_walk (queue_items : List QueueItem) (elapsed : Int) (ci : Nat) :
    List PlayLogEntry → Int → Option Nat × Int
  | [], _ => (some ci, 0)
  | e :: rest, played =>
    let dur := effective_duration e
    if elapsed > dur + played then
      flow_walk queue_items elapsed ci rest (played + dur)
    else
      (index_by_id queue_items e.queue_item_id,
       elapsed + log_entry_seek queue_items e - played)

/-- `_get_flow_queue_stream_index` (player_queues.py:1721): translate the
device's cumulative elapsed stream seconds back into (queue index, per-track
elapsed seconds).  `corrected_elapsed` is the player's
`corrected_elapsed_time` (possibly `None`). -/
def get_flow_queue_stream_index (queue : PlayerQueue)
    (queue_items : List QueueItem) (corrected_elapsed : Option Int) :
    Option Nat × Int :=
  let elapsed_time_queue_total := pyOrInt corrected_elapsed 0
  match queue.current_index with
  | none => (none, elapsed_time_queue_total)
  | some _ =>
    flow_walk queue_items elapsed_time_queue_total
      (pyOrNat queue.current_index 0) queue.flow_mode_stream_log 0

/-- Modelled from the spec and `music_assistant_models`: the
`PlayerQueue.from_cache` / `QueueItem.from_cache` deserializers live outside
`src/`; their outcomes on the two cached blobs are passed in as parameters
(`none` = no cached state present, `.error` = the deserializer raised). -/
def on_player_register (default_queue : PlayerQueue)
    (state_restore : Option (Except Unit PlayerQueue))
    (items_restore : Except Unit (List QueueItem)) :
    Except PyError (PlayerQueue × List QueueItem) :=
  -- the local variables `queue` / `queue_items` of the Python function,
  -- `none` meaning "not yet bound" (player_queues.py:857-892)
  let bound : Option PlayerQueue × Option (List QueueItem) :=
    match state_restore with
    | none => (none, none)
    | some (.error _) => (none, none)
    | some (.ok q) =>
      match items_restore with
      | .error _ => (some q, none)
      | .ok its => (some q, some its)
  match bound with
  | (none, _) => .ok (default_queue, [])
  | (some q, some its) => .ok (q, its)
  | (some _, none) => .error .nameError

/-- A resolved media item as far as `play_media` inspects it after the
resolution loop. -/
structure MediaItem where
  item_id : String
  available : Bool
deriving DecidableEq, Repr

/-- `QueueItem.from_media_item`, as far as its inputs are modelled (the
constructor lives outside `src/`; only the identity of the media item
matters to the claims). -/
def queue_item_from_media (queue_id : String) (m : MediaItem) : QueueItem :=
  { queue_id := queue_id, queue_item_id := m.item_id,
    media_available := some m.available }

/-- An error surfaced by `play_media`. -/
inductive MAError where
  | mediaNotFound (msg : String)
deriving DecidableEq, Repr

/-- The availability filter and empty check of `play_media`
(player_queues.py:386-388 and 459-465): an in-progress announcement returns
silently (`.ok none`); otherwise the resolved items are filtered on
`x and x.available` and an empty result raises
`MediaNotFoundError("No playable items found")`.  The entries are the results
of the resolution loop; `none` models a `None` entry. -/
def play_media_filter (queue_id : String) (announcement_in_progress : Bool)
    (media_items : List (Option MediaItem)) :
    Except MAError (Option (List QueueItem)) :=
  if announcement_in_progress then
    .ok none
  else
    let queue_items := media_items.filterMap (fun x =>
      match x with
      | some m => if m.available then some (queue_item_from_media queue_id m) else none
      | none => none)
    if queue_items.isEmpty then
      .error (.mediaNotFound "No playable items found")
    else
      .ok (some queue_items)

/-- An opaque track handled by the radio generator. -/
structure Track where
  track_id : String
deriving DecidableEq, Repr

/-- The `BDDBDD…` interleave loop of `_get_radio_tracks`
(player_queues.py:1694-1699): for each remaining base track append it,
followed by `random.sample(dynamic_tracks, 2)` (modelled by `pick2`, indexed
by the iteration counter) when more than two dynamic tracks exist, else by
all dynamic tracks.  The dynamic-track list is never depleted by the loop. -/
def radio_interleave (dynamic_tracks : List Track) (pick2 : Nat → List Track) :
    Nat → List Track → List Track
  | _, [] => []
  | i, b :: rest =>
    (b :: (if dynamic_tracks.length > 2 then pick2 i else dynamic_tracks))
      ++ radio_interleave dynamic_tracks pick2 (i + 1) rest

/-- The assembly phase of `_get_radio_tracks` (player_queues.py:1687-1706),
starting from the sampled base tracks and the collected dynamic (similar)
tracks.  `pick_final` models `random.sample(remaining, min(len, 25))`. -/
def radio_assemble (base_tracks dynamic_tracks : List Track)
    (pick2 : Nat → List Track) (pick_final : List Track → List Track)
    (is_initial_radio_mode : Bool) : List Track :=
  let queue_tracks : List Track :=
    if is_initial_radio_mode then
      match base_tracks with
      | [] => []
      | b0 :: rest => b0 :: radio_interleave dynamic_tracks pick2 0 rest
    else
      []
  let remaining_dynamic_tracks :=
    dynamic_tracks.filter (fun t => ¬ (t ∈ queue_tracks))
  if remaining_dynamic_tracks.isEmpty then
    queue_tracks
  else
    queue_tracks ++ pick_final remaining_dynamic_tracks

/-- `_get_radio_tracks` from the base-track sampling onward
(player_queues.py:1662-1706): `sample_base` models
`random.sample(available_base_tracks, min(5, len(available_base_tracks)))`. -/
def get_radio_tracks (available_base_tracks dynamic_tracks : List Track)
    (sample_base : Nat → List Track) (pick2 : Nat → List Track)
    (pick_final : List Track → List Track) (is_initial_radio_mode : Bool) :
    List Track :=
  let base_tracks := sample_base (min 5 available_base_tracks.length)
  radio_assemble base_tracks dynamic_tracks pick2 pick_final is_initial_radio_mode

/-! ### Sample data used by the witnesses -/

def item_a : QueueItem := { queue_item_id := "a" }

def item_b : QueueItem := { queue_item_id := "b", sort_index := 1 }

def item_c : QueueItem := { queue_item_id := "c", sort_index := 2 }

def queue_repeat_one : PlayerQueue := { repeat_mode := RepeatMode.one }

def queue_repeat_all : PlayerQueue := { repeat_mode := RepeatMode.all }

def queue_repeat_off : PlayerQueue := {}

def buffered_queue : PlayerQueue := { index_in_buffer := some 1, current_index := some 1 }

def unbuffered_queue : PlayerQueue := { index_in_buffer := none }

/-! ### C1: next-index repeat semantics -/

/-- C1: `_get_next_index` follows the spec's repeat semantics: with an empty
item list or `cur_index = none` it returns `none`; with repeat-one and not an
explicit skip it returns `cur_index` if `allow_repeat`, else `none` (an
explicit skip falls through to the advancing cases); at the last index it
returns `0` exactly when `allow_repeat` and repeat-all; in all other cases it
returns `cur_index + 1`. -/
theorem next_index_repeat_semantics (queue : PlayerQueue)
    (queue_items : List QueueItem) (cur_index : Option Nat)
    (is_skip allow_repeat : Bool) :
    ((queue_items = [] ∨ cur_index = none) →
      get_next_index queue queue_items cur_index is_skip allow_repeat = none) ∧
    (∀ ci, cur_index = some ci → queue_items ≠ [] →
      queue.repeat_mode = RepeatMode.one → is_skip = false →
      get_next_index queue queue_items cur_index is_skip allow_repeat =
        if allow_repeat then some ci else none) ∧
    (∀ ci, cur_index = some ci → ci + 1 = queue_items.length →
      ¬(queue.repeat_mode = RepeatMode.one ∧ is_skip = false) →
      get_next_index queue queue_items cur_index is_skip allow_repeat =
        if allow_repeat ∧ queue.repeat_mode = RepeatMode.all then some 0 else none) ∧
    (∀ ci, cur_index = some ci → ci + 1 < queue_items.length →
      ¬(queue.repeat_mode = RepeatMode.one ∧ is_skip = false) →
      get_next_index queue queue_items cur_index is_skip allow_repeat =
        some (ci + 1)) := by
  refine ⟨?_, ?_, ?_, ?_⟩
  · rintro (rfl | rfl)
    · cases cur_index <;> simp [get_next_index]
    · simp [get_next_index]
  · rintro ci rfl hne hone hskip
    simp [get_next_index, List.isEmpty_iff, hne, hone, hskip]
  · rintro ci rfl hlast hnot
    have hne : queue_items ≠ [] := by
      intro h
      rw [h] at hlast
      simp at hlast
    simp only [get_next_index, List.isEmpty_iff]
    rw [if_neg hne, if_neg hnot, if_pos (by omega)]
  · rintro ci rfl hlt hnot
    have hne : queue_items ≠ [] := by
      intro h
      rw [h] at hlt
      simp at hlt
    simp only [get_next_index, List.isEmpty_iff]
    rw [if_neg hne, if_neg hnot, if_neg (by omega)]

/-- Witness for C1: each case of `next_index_repeat_semantics` evaluated on a
concrete queue. -/
theorem next_index_repeat_semantics_witness :
    get_next_index queue_repeat_off [] (some 0) false true = none ∧
    get_next_index queue_repeat_one [item_a] (some 0) false true = some 0 ∧
    get_next_index queue_repeat_one [item_a] (some 0) false false = none ∧
    get_next_index queue_repeat_one [item_a, item_b] (some 0) true true = some 1 ∧
    get_next_index queue_repeat_all [item_a, item_b] (some 1) false true = some 0 ∧
    get_next_index queue_repeat_off [item_a, item_b] (some 1) false true = none ∧
    get_next_index queue_repeat_off [item_a, item_b] (some 0) false true = some 1 :=
  ⟨(next_index_repeat_semantics _ _ _ _ _).1 (Or.inl rfl),
   ((next_index_repeat_semantics _ _ _ _ _).2.1 0 rfl (by decide) (by decide)
     rfl).trans (by decide),
   ((next_index_repeat_semantics _ _ _ _ _).2.1 0 rfl (by decide) (by decide)
     rfl).trans (by decide),
   (next_index_repeat_semantics _ _ _ _ _).2.2.2 0 rfl (by decide) (by decide),
   ((next_index_repeat_semantics _ _ _ _ _).2.2.1 1 rfl (by decide)
     (by decide)).trans (by decide),
   ((next_index_repeat_semantics _ _ _ _ _).2.2.1 1 rfl (by decide)
     (by decide)).trans (by decide),
   (next_index_repeat_semantics _ _ _ _ _).2.2.2 0 rfl (by decide) (by decide)⟩

/-! ### C2: items at or before the buffer index are immutable -/

/-- C2: with `index_in_buffer` set, moving an item whose index is at or before
it raises the "already played/buffered" `IndexError`, and deleting it (by id
or by index) is a silent no-op: the item list is unchanged. -/
theorem buffered_items_immutable (queue : PlayerQueue)
    (queue_items : List QueueItem) (queue_item_id : String) (pos_shift : Int)
    (item_index buffer_index : Nat)
    (hidx : index_by_id queue_items queue_item_id = some item_index)
    (hbuf : queue.index_in_buffer = some buffer_index)
    (hle : item_index ≤ buffer_index) :
    move_item queue queue_items queue_item_id pos_shift =
      .error (.indexError s!"{item_index} is already played/buffered") ∧
    delete_item queue queue_items (.byId queue_item_id) =
      .ok (queue, queue_items) ∧
    delete_item queue queue_items (.byIndex (item_index : Int)) =
      .ok (queue, queue_items) := by
  refine ⟨?_, ?_, ?_⟩
  · unfold move_item
    rw [hidx, hbuf]
    simp [hle]
  · simp only [delete_item, hbuf, hidx]
    rw [if_pos (by exact_mod_cast hle)]
  · simp only [delete_item, hbuf]
    rw [if_pos (by exact_mod_cast hle)]

/-- Witness for C2: a queue whose buffer index is 1 rejects moving and
deleting the item at index 0. -/
theorem buffered_items_immutable_witness :
    move_item buffered_queue [item_a, item_b] "a" 1 =
      .error (.indexError "0 is already played/buffered") ∧
    delete_item buffered_queue [item_a, item_b] (.byId "a") =
      .ok (buffered_queue, [item_a, item_b]) ∧
    delete_item buffered_queue [item_a, item_b] (.byIndex 0) =
      .ok (buffered_queue, [item_a, item_b]) := by
  have h := buffered_items_immutable buffered_queue [item_a, item_b] "a" 1 0 1
    (by decide) rfl (by decide)
  exact ⟨h.1.trans (by decide), h.2.1, h.2.2⟩

/-! ### C9: move-item on an unset buffer index or unknown item id raises -/

/-- C9: the buffered-guard comparison of `move_item` needs both a resolved
item index and a set `index_in_buffer`; if either is `None` the comparison
raises `TypeError` instead of moving the item or treating the call as a
no-op. -/
theorem move_item_none_comparison_raises (queue : PlayerQueue)
    (queue_items : List QueueItem) (queue_item_id : String) (pos_shift : Int) :
    (index_by_id queue_items queue_item_id = none →
      move_item queue queue_items queue_item_id pos_shift = .error .typeError) ∧
    (queue.index_in_buffer = none →
      move_item queue queue_items queue_item_id pos_shift = .error .typeError) := by
  constructor
  · intro h
    unfold move_item
    rw [h]
  · intro h
    unfold move_item
    rw [h]
    cases index_by_id queue_items queue_item_id <;> rfl

/-- Witness for C9: a queue with no buffered track, and a present queue with
an unknown item id, both raise `TypeError` from `move_item`. -/
theorem move_item_none_comparison_raises_witness :
    move_item unbuffered_queue [item_a] "a" 1 = .error .typeError ∧
    move_item buffered_queue [item_a, item_b] "zzz" 1 = .error .typeError :=
  ⟨(move_item_none_comparison_raises _ _ _ _).2 rfl,
   (move_item_none_comparison_raises _ _ _ _).1 (by decide)⟩

/-! ### C6: queue registration with a bad snapshot -/

def default_empty_queue : PlayerQueue := {}

def restored_queue : PlayerQueue :=
  { repeat_mode := RepeatMode.all, current_index := some 2 }

/-- C6: when the cached queue state deserializes but the cached item list
fails to deserialize, `on_player_register` raises (`queue_items` is referenced
before assignment because the `queue is None` fallback is skipped) instead of
falling back to an empty queue. -/
theorem register_items_restore_failure_raises :
    on_player_register default_empty_queue (some (.ok restored_queue))
      (.error ()) = .error .nameError := rfl

/-! ### C8: play-media with zero playable items -/

/-- C8: if every resolved reference is `None` or unavailable, `play_media`
raises `MediaNotFoundError("No playable items found")` (with no announcement
in progress, which would return before resolving). -/
theorem play_media_no_playable_items_raises (queue_id : String)
    (media_items : List (Option MediaItem))
    (hno : ∀ x ∈ media_items, ∀ m, x = some m → m.available = false) :
    play_media_filter queue_id false media_items =
      .error (.mediaNotFound "No playable items found") := by
  unfold play_media_filter
  have h : media_items.filterMap (fun x =>
      match x with
      | some m => if m.available then some (queue_item_from_media queue_id m) else none
      | none => none) = [] := by
    rw [List.filterMap_eq_nil_iff]
    intro a ha
    cases a with
    | none => rfl
    | some m => simp [hno _ ha m rfl]
  simp [h]

/-- Witness for C8: one unresolvable reference and one unavailable item raise
the "not found" error. -/
theorem play_media_no_playable_items_raises_witness :
    play_media_filter "q1" false [none, some { item_id := "x", available := false }] =
      .error (.mediaNotFound "No playable items found") :=
  play_media_no_playable_items_raises "q1" _ (by
    intro x hx m hm
    rcases List.mem_cons.mp hx with rfl | hx
    · cases hm
    · rcases List.mem_cons.mp hx with rfl | hx
      · injection hm with h
        rw [← h]
      · cases hx)

/-! ### C10: every item-list replacement resets the preload dedup marker -/

/-- Helper for the mutating paths that finish in `update_items` through
`Except.map`. -/
theorem map_update_items_marker (queue : PlayerQueue)
    (r : Except PyError (List QueueItem)) (q' : PlayerQueue)
    (its' : List QueueItem)
    (h : r.map (fun l => update_items queue l) = .ok (q', its')) :
    q'.next_track_enqueued = none := by
  cases r with
  | error e => simp [Except.map] at h
  | ok l =>
    simp only [Except.map, update_items, Except.ok.injEq, Prod.mk.injEq] at h
    rw [← h.1]

def marker_queue : PlayerQueue :=
  { next_track_enqueued := some "x", index_in_buffer := some 0,
    current_index := some 0 }

def moved_marker_queue : PlayerQueue :=
  { marker_queue with items := 3, next_track_enqueued := none }

def deleted_marker_queue : PlayerQueue :=
  { marker_queue with items := 2, next_track_enqueued := none }

/-- C10: every operation that replaces a queue's item list — `load`,
`move_item` (when it moves), `delete_item` (when it deletes), `clear` and
`transfer_queue` (for both queues) — funnels through `update_items` and so
resets the `next_track_enqueued` deduplication marker to `none`; the only
`.ok` results that keep the marker are the exact no-ops that leave the list
untouched. -/
theorem item_list_update_resets_enqueued_marker
    (queue : PlayerQueue) (stored_items queue_items : List QueueItem)
    (insert_at : Nat) (keep_remaining keep_played shuffle : Bool)
    (perm : List QueueItem → List QueueItem)
    (queue_item_id : String) (pos_shift : Int) (ref : ItemRef)
    (source target : PlayerQueue) (source_items target_items : List QueueItem)
    (tid : String) :
    ((load queue stored_items queue_items insert_at keep_remaining keep_played
        shuffle perm).1.next_track_enqueued = none) ∧
    (∀ q' its',
      move_item queue stored_items queue_item_id pos_shift = .ok (q', its') →
      q'.next_track_enqueued = none ∨ (q' = queue ∧ its' = stored_items)) ∧
    (∀ q' its',
      delete_item queue stored_items ref = .ok (q', its') →
      q'.next_track_enqueued = none ∨ (q' = queue ∧ its' = stored_items)) ∧
    ((clear queue).1.next_track_enqueued = none) ∧
    ((transfer_queue source target source_items target_items
        tid).1.1.next_track_enqueued = none ∧
     (transfer_queue source target source_items target_items
        tid).2.1.next_track_enqueued = none) := by
  refine ⟨rfl, ?_, ?_, rfl, rfl, rfl⟩
  · intro q' its' h
    simp only [move_item] at h
    split at h
    · exact Except.noConfusion h
    · exact Except.noConfusion h
    · split at h
      · exact Except.noConfusion h
      · repeat' split at h
        all_goals
          first
            | exact Except.noConfusion h
            | (simp only [update_items, Except.ok.injEq, Prod.mk.injEq] at h
               obtain ⟨h1, h2⟩ := h
               subst h1
               exact Or.inl rfl)
            | (simp only [Except.ok.injEq, Prod.mk.injEq] at h
               exact Or.inr ⟨h.1.symm, h.2.symm⟩)
  · intro q' its' h
    simp only [delete_item] at h
    split at h
    · split at h
      · simp at h
      · split at h
        · simp only [Except.ok.injEq, Prod.mk.injEq] at h
          exact Or.inr ⟨h.1.symm, h.2.symm⟩
        · exact Or.inl (map_update_items_marker _ _ _ _ h)
    · split at h
      · simp at h
      · exact Or.inl (map_update_items_marker _ _ _ _ h)

/-- Witness for C10: a concrete successful move and a concrete successful
delete, both of which reset the marker. -/
theorem item_list_update_resets_enqueued_marker_witness :
    (moved_marker_queue.next_track_enqueued = none ∨
      (moved_marker_queue = marker_queue ∧
        ([item_a, item_c, item_b] : List QueueItem) = [item_a, item_b, item_c])) ∧
    (deleted_marker_queue.next_track_enqueued = none ∨
      (deleted_marker_queue = marker_queue ∧
        ([item_a, item_b] : List QueueItem) = [item_a, item_b, item_c])) :=
  ⟨(item_list_update_resets_enqueued_marker marker_queue [item_a, item_b, item_c]
      [] 0 true true false id "c" (-1) (.byIndex 2) marker_queue marker_queue [] []
      "t").2.1 moved_marker_queue [item_a, item_c, item_b] (by decide),
   (item_list_update_resets_enqueued_marker marker_queue [item_a, item_b, item_c]
      [] 0 true true false id "c" (-1) (.byIndex 2) marker_queue marker_queue [] []
      "t").2.2.1 deleted_marker_queue [item_a, item_b] (by decide)⟩

/-! ### C3: flow-mode stream translation -/

/-- Cumulative effective duration of a play-log prefix. -/
def sum_effective_duration (log : List PlayLogEntry) : Int :=
  (log.map effective_duration).sum

/-- Effective duration of the `i`-th play-log entry (0 out of range). -/
def effective_duration_at (log : List PlayLogEntry) (i : Nat) : Int :=
  match log[i]? with
  | some e => effective_duration e
  | none => 0

theorem pyOrInt_some_zero (x : Int) : pyOrInt (some x) 0 = x := by
  by_cases h : x = 0
  · simp [pyOrInt, h]
  · simp [pyOrInt, h]

/-- The play-log walk stops at the first entry whose cumulative boundary is
not exceeded and reports that entry's queue index and per-track time. -/
theorem flow_walk_found (queue_items : List QueueItem) (elapsed : Int)
    (ci : Nat) :
    ∀ (log : List PlayLogEntry) (played : Int) (j : Nat) (e : PlayLogEntry),
      log[j]? = some e →
      (∀ i, i < j → elapsed > played + sum_effective_duration (log.take i) +
        effective_duration_at log i) →
      elapsed ≤ played + sum_effective_duration (log.take j) +
        effective_duration e →
      flow_walk queue_items elapsed ci log played =
        (index_by_id queue_items e.queue_item_id,
         elapsed + log_entry_seek queue_items e -
           (played + sum_effective_duration (log.take j))) := by
  intro log
  induction log with
  | nil =>
    intro played j e he _ _
    simp at he
  | cons f rest ih =>
    intro played j e he hbefore hhit
    cases j with
    | zero =>
      rw [List.getElem?_cons_zero] at he
      injection he with he
      subst he
      simp only [flow_walk]
      rw [if_neg (by
        simp only [List.take_zero, sum_effective_duration, List.map_nil,
          List.sum_nil] at hhit
        omega)]
      simp [sum_effective_duration]
    | succ j =>
      have h0 := hbefore 0 (Nat.succ_pos j)
      simp only [List.take_zero, sum_effective_duration, List.map_nil,
        List.sum_nil, effective_duration_at, List.getElem?_cons_zero] at h0
      simp only [flow_walk]
      rw [if_pos (by omega)]
      have he' : rest[j]? = some e := by simpa using he
      have hb' : ∀ i, i < j →
          elapsed > (played + effective_duration f) +
            sum_effective_duration (rest.take i) +
            effective_duration_at rest i := by
        intro i hi
        have hcall := hbefore (i + 1) (by omega)
        simp only [List.take_succ_cons, sum_effective_duration, List.map_cons,
          List.sum_cons, effective_duration_at, List.getElem?_cons_succ]
          at hcall ⊢
        omega
      have hh' : elapsed ≤ (played + effective_duration f) +
          sum_effective_duration (rest.take j) + effective_duration e := by
        simp only [List.take_succ_cons, sum_effective_duration, List.map_cons,
          List.sum_cons] at hhit ⊢
        omega
      rw [ih (played + effective_duration f) j e he' hb' hh']
      simp only [List.take_succ_cons, sum_effective_duration, List.map_cons,
        List.sum_cons]
      congr 1
      omega

/-- C3: the flow-mode stream translator walks the log in order accumulating
each entry's effective duration into `played` and returns, as current track,
the first entry whose cumulative boundary is not exceeded, with per-track
elapsed time `elapsed - played + seek-offset`. -/
theorem flow_stream_first_boundary (queue : PlayerQueue)
    (queue_items : List QueueItem) (elapsed : Int) (ci j : Nat)
    (e : PlayLogEntry)
    (hci : queue.current_index = some ci)
    (he : queue.flow_mode_stream_log[j]? = some e)
    (hbefore : ∀ i, i < j → elapsed >
      sum_effective_duration (queue.flow_mode_stream_log.take i) +
      effective_duration_at queue.flow_mode_stream_log i)
    (hhit : elapsed ≤
      sum_effective_duration (queue.flow_mode_stream_log.take j) +
      effective_duration e) :
    get_flow_queue_stream_index queue queue_items (some elapsed) =
      (index_by_id queue_items e.queue_item_id,
       elapsed + log_entry_seek queue_items e -
         sum_effective_duration (queue.flow_mode_stream_log.take j)) := by
  simp only [get_flow_queue_stream_index, hci, pyOrInt_some_zero]
  have h := flow_walk_found queue_items elapsed (pyOrNat (some ci) 0)
    queue.flow_mode_stream_log 0 j e he
    (by intro i hi; have := hbefore i hi; omega)
    (by omega)
  rw [h]
  congr 1
  omega

def flow_items : List QueueItem :=
  [{ queue_item_id := "A" }, { queue_item_id := "B" }]

def flow_queue : PlayerQueue :=
  { current_index := some 0,
    flow_mode_stream_log :=
      [{ queue_item_id := "A", seconds_streamed := some 180 },
       { queue_item_id := "B", seconds_streamed := some 200 }] }

/-- Witness for C3: the spec's example — log `[{A, streamed 180},
{B, streamed 200}]` at cumulative elapsed 190 yields the index of `B` with
per-track elapsed 10. -/
theorem flow_stream_first_boundary_witness :
    get_flow_queue_stream_index flow_queue flow_items (some 190) =
      (some 1, 10) := by
  have h := flow_stream_first_boundary flow_queue flow_items 190 0 1
    { queue_item_id := "B", seconds_streamed := some 200 } rfl (by decide)
    (by decide) (by decide)
  exact h.trans (by decide)

/-! ### C4: load splicing structure -/

/-- Reassigning `sort_index` does not change the items' identities. -/
theorem bump_sort_index_map_id :
    ∀ (l : List QueueItem) (b i : Nat),
      (bump_sort_index b i l).map (fun it => it.queue_item_id) =
        l.map (fun it => it.queue_item_id)
  | [], _, _ => rfl
  | item :: rest, b, i => by
    simp only [bump_sort_index, List.map_cons]
    rw [bump_sort_index_map_id rest b (i + 1)]

def plain_queue : PlayerQueue := {}

/-- Counterexample to C4 as stated: with `shuffle=true`, `load` permutes the
whole tail (new batch plus kept remainder together), so the segment after the
new batch need not be the original tail.  With existing `[a, b]`, new batch
`[c]`, `insert_at = 1` and the (valid) permutation outcome `reverse`, the
result is `[a, b, c]`-shaped with `c` last — position 2 holds `c`, not the
original tail item `b`. -/
theorem load_shuffle_whole_tail_counterexample :
    ((bump_sort_index 1 0 ([item_c] ++ [item_a, item_b].drop 1)).reverse).Perm
      (bump_sort_index 1 0 ([item_c] ++ [item_a, item_b].drop 1)) ∧
    ((load plain_queue [item_a, item_b] [item_c] 1 true true true
        List.reverse).2.drop (1 + 1)).map (fun it => it.queue_item_id) ≠
      ([item_a, item_b].drop 1).map (fun it => it.queue_item_id) := by decide

/-- C4 (amended): `load` with `keep_remaining=true, keep_played=true,
insert_at=k` preserves the first `k` items unchanged.  With `shuffle=false`
the new batch follows at positions `[k, k+|new|)` and the original tail from
index `k` follows the new batch (same items in order; their `sort_index`
fields are reassigned).  With `shuffle=true` the entire remainder — new batch
plus kept tail together, not the new batch alone — is permuted, so the
result's remainder is a permutation of new batch ++ original tail. -/
theorem load_insert_preserves_structure (queue : PlayerQueue)
    (existing new_batch : List QueueItem) (k : Nat)
    (perm : List QueueItem → List QueueItem)
    (hk : k ≤ existing.length) (hperm : ∀ l, (perm l).Perm l) :
    ((load queue existing new_batch k true true false perm).2.take k =
      existing.take k ∧
     (((load queue existing new_batch k true true false perm).2.drop k).take
        new_batch.length).map (fun it => it.queue_item_id) =
      new_batch.map (fun it => it.queue_item_id) ∧
     ((load queue existing new_batch k true true false perm).2.drop
        (k + new_batch.length)).map (fun it => it.queue_item_id) =
      (existing.drop k).map (fun it => it.queue_item_id)) ∧
    ((load queue existing new_batch k true true true perm).2.take k =
      existing.take k ∧
     (((load queue existing new_batch k true true true perm).2.drop k).map
        (fun it => it.queue_item_id)).Perm
      ((new_batch ++ existing.drop k).map (fun it => it.queue_item_id))) := by
  have hA : (existing.take k).length = k := by
    rw [List.length_take]
    omega
  have hres : (load queue existing new_batch k true true false perm).2 =
      existing.take k ++ bump_sort_index k 0 (new_batch ++ existing.drop k) := rfl
  have hres' : (load queue existing new_batch k true true true perm).2 =
      existing.take k ++
        perm (bump_sort_index k 0 (new_batch ++ existing.drop k)) := rfl
  refine ⟨⟨?_, ?_, ?_⟩, ?_, ?_⟩
  · rw [hres, List.take_left' hA]
  · rw [hres, List.drop_left' hA, List.map_take, bump_sort_index_map_id,
      List.map_append, List.take_left' (by rw [List.length_map])]
  · have hkn : k + new_batch.length =
        (existing.take k).length + new_batch.length := by rw [hA]
    rw [hres, hkn, List.drop_append, List.map_drop, bump_sort_index_map_id,
      List.map_append, List.drop_left' (by rw [List.length_map])]
  · rw [hres', List.take_left' hA]
  · rw [hres', List.drop_left' hA,
      ← bump_sort_index_map_id (new_batch ++ existing.drop k) k 0]
    exact (hperm _).map _

/-- Witness for C4 (amended): the structure evaluated on existing `[a, b]`,
new batch `[c]`, `insert_at = 1` and the permutation outcome `reverse`. -/
theorem load_insert_preserves_structure_witness :
    ((load plain_queue [item_a, item_b] [item_c] 1 true true false
        List.reverse).2.take 1 = [item_a, item_b].take 1 ∧
     (((load plain_queue [item_a, item_b] [item_c] 1 true true false
        List.reverse).2.drop 1).take
        ([item_c] : List QueueItem).length).map (fun it => it.queue_item_id) =
      ([item_c] : List QueueItem).map (fun it => it.queue_item_id) ∧
     ((load plain_queue [item_a, item_b] [item_c] 1 true true false
        List.reverse).2.drop
        (1 + ([item_c] : List QueueItem).length)).map (fun it => it.queue_item_id) =
      ([item_a, item_b].drop 1).map (fun it => it.queue_item_id)) ∧
    ((load plain_queue [item_a, item_b] [item_c] 1 true true true
        List.reverse).2.take 1 = [item_a, item_b].take 1 ∧
     (((load plain_queue [item_a, item_b] [item_c] 1 true true true
        List.reverse).2.drop 1).map (fun it => it.queue_item_id)).Perm
      (([item_c] ++ [item_a, item_b].drop 1).map (fun it => it.queue_item_id))) :=
  load_insert_preserves_structure plain_queue [item_a, item_b] [item_c] 1
    List.reverse (by decide) (fun l => List.reverse_perm l)

/-! ### C5: disabling shuffle restores ascending sort order -/

/-- Every element of a bumped list is an element of the original with its
`sort_index` raised by at least `b + i`. -/
theorem bump_sort_index_mem :
    ∀ (l : List QueueItem) (b i : Nat) (y : QueueItem),
      y ∈ bump_sort_index b i l →
      ∃ z ∈ l, ∃ j, i ≤ j ∧ y.sort_index = z.sort_index + b + j
  | [], _, _, _, hy => by simp [bump_sort_index] at hy
  | x :: rest, b, i, y, hy => by
    rcases List.mem_cons.mp hy with rfl | hy
    · exact ⟨x, List.mem_cons_self x rest, i, Nat.le_refl i, rfl⟩
    · obtain ⟨z, hz, j, hij, hyj⟩ := bump_sort_index_mem rest b (i + 1) y hy
      exact ⟨z, List.mem_cons_of_mem x hz, j, by omega, hyj⟩

/-- Reassigning `sort_index` with strictly increasing offsets preserves
ascending `sort_index` order. -/
theorem bump_sort_index_pairwise (b : Nat) :
    ∀ (l : List QueueItem) (i : Nat),
      l.Pairwise (fun x y => x.sort_index ≤ y.sort_index) →
      (bump_sort_index b i l).Pairwise
        (fun x y => x.sort_index ≤ y.sort_index)
  | [], _, _ => by simp [bump_sort_index]
  | x :: rest, i, h => by
    rw [List.pairwise_cons] at h
    simp only [bump_sort_index, List.pairwise_cons]
    refine ⟨?_, bump_sort_index_pairwise b rest (i + 1) h.2⟩
    intro y hy
    obtain ⟨z, hz, j, hij, hyj⟩ := bump_sort_index_mem rest b (i + 1) y hy
    have hxz := h.1 z hz
    show x.sort_index + b + i ≤ y.sort_index
    rw [hyj]
    omega

def item_y : QueueItem := { queue_item_id := "y", sort_index := 2 }

def item_z : QueueItem := { queue_item_id := "z", sort_index := 1 }

def shuffle_queue : PlayerQueue :=
  { shuffle_enabled := true, current_index := some 0 }

/-- C5: disabling shuffle leaves the items up to the buffered/current
position untouched and restores the remaining items to ascending
`sort_index` order — the remainder is the same multiset of items, sorted by
`sort_index` (recovering the pre-shuffle order). -/
theorem disable_shuffle_restores_sort_order (queue : PlayerQueue)
    (queue_items : List QueueItem) (perm : List QueueItem → List QueueItem)
    (ci : Nat)
    (hshuffle : queue.shuffle_enabled = true)
    (hcur : pyOrOpt queue.index_in_buffer queue.current_index = some ci) :
    (set_shuffle queue queue_items false perm).2.take (ci + 1) =
      queue_items.take (ci + 1) ∧
    ((set_shuffle queue queue_items false perm).2.drop (ci + 1)).Pairwise
      (fun a b => a.sort_index ≤ b.sort_index) ∧
    (((set_shuffle queue queue_items false perm).2.drop (ci + 1)).map
      (fun it => it.queue_item_id)).Perm
      ((queue_items.drop (ci + 1)).map (fun it => it.queue_item_id)) := by
  have hres : (set_shuffle queue queue_items false perm).2 =
      queue_items.take (ci + 1) ++ bump_sort_index (ci + 1) 0
        ((queue_items.drop (ci + 1)).mergeSort
          (fun a b => a.sort_index ≤ b.sort_index)) := by
    simp only [set_shuffle, hshuffle, load, update_items]
    rw [if_neg (by simp)]
    simp [hcur]
  have hsorted : ((queue_items.drop (ci + 1)).mergeSort
      (fun a b => a.sort_index ≤ b.sort_index)).Pairwise
      (fun a b => a.sort_index ≤ b.sort_index) := by
    have h : ((queue_items.drop (ci + 1)).mergeSort
        (fun a b => decide (a.sort_index ≤ b.sort_index))).Pairwise
        (fun a b => decide (a.sort_index ≤ b.sort_index) = true) :=
      List.sorted_mergeSort
        (by intro a b c hab hbc; simp only [decide_eq_true_eq] at hab hbc ⊢; omega)
        (by intro a b; simp only [Bool.or_eq_true, decide_eq_true_eq]; omega)
        (queue_items.drop (ci + 1))
    exact h.imp (fun hab => by simpa using hab)
  by_cases hlen : ci + 1 ≤ queue_items.length
  · have hA : (queue_items.take (ci + 1)).length = ci + 1 := by
      rw [List.length_take]
      omega
    refine ⟨?_, ?_, ?_⟩
    · rw [hres, List.take_left' hA]
    · rw [hres, List.drop_left' hA]
      exact bump_sort_index_pairwise (ci + 1)
        ((queue_items.drop (ci + 1)).mergeSort
          (fun a b => a.sort_index ≤ b.sort_index)) 0 hsorted
    · rw [hres, List.drop_left' hA, bump_sort_index_map_id]
      exact (List.mergeSort_perm _ _).map _
  · have hdrop : queue_items.drop (ci + 1) = [] :=
      List.drop_eq_nil_of_le (by omega)
    rw [hres, hdrop]
    simp [bump_sort_index, List.take_take, List.drop_eq_nil_of_le,
      List.length_take]

/-- Witness for C5: shuffled remainder `[y(sort 2), z(sort 1)]` behind the
current item is restored to `[z, y]`, ascending by `sort_index`. -/
theorem disable_shuffle_restores_sort_order_witness :
    (set_shuffle shuffle_queue [item_a, item_y, item_z] false id).2.take (0 + 1) =
      [item_a, item_y, item_z].take (0 + 1) ∧
    ((set_shuffle shuffle_queue [item_a, item_y, item_z] false
        id).2.drop (0 + 1)).Pairwise
      (fun a b => a.sort_index ≤ b.sort_index) ∧
    (((set_shuffle shuffle_queue [item_a, item_y, item_z] false
        id).2.drop (0 + 1)).map (fun it => it.queue_item_id)).Perm
      (([item_a, item_y, item_z].drop (0 + 1)).map
        (fun it => it.queue_item_id)) :=
  disable_shuffle_restores_sort_order shuffle_queue [item_a, item_y, item_z]
    id 0 rfl rfl

/-! ### C7: initial radio interleave pattern -/

/-- The `one base track + its similar picks` segments, zipped. -/
def interleave_seg : List Track → List (List Track) → List Track
  | [], _ => []
  | _ :: _, [] => []
  | b :: bs, s :: ss => (b :: s) ++ interleave_seg bs ss

/-- The interleave loop decomposes into per-base segments, each contributing
the base track followed by at most two tracks from the dynamic set. -/
theorem radio_interleave_segments (dynamic : List Track)
    (pick2 : Nat → List Track)
    (hpick : ∀ i, dynamic.length > 2 →
      (pick2 i).length = 2 ∧ ∀ t ∈ pick2 i, t ∈ dynamic) :
    ∀ (rest : List Track) (i : Nat),
      ∃ sims : List (List Track), sims.length = rest.length ∧
        (∀ l ∈ sims, l.length ≤ 2 ∧ ∀ t ∈ l, t ∈ dynamic) ∧
        radio_interleave dynamic pick2 i rest = interleave_seg rest sims := by
  intro rest
  induction rest with
  | nil => exact fun i => ⟨[], rfl, by simp, rfl⟩
  | cons b bs ih =>
    intro i
    obtain ⟨sims, hlen, hprop, heq⟩ := ih (i + 1)
    refine ⟨(if dynamic.length > 2 then pick2 i else dynamic) :: sims,
      by simp [hlen], ?_, ?_⟩
    · intro l hl
      rcases List.mem_cons.mp hl with rfl | hl
      · by_cases hd : dynamic.length > 2
        · rw [if_pos hd]
          exact ⟨(hpick i hd).1.le, (hpick i hd).2⟩
        · rw [if_neg hd]
          exact ⟨by omega, fun t ht => ht⟩
      · exact hprop l hl
    · simp only [radio_interleave, interleave_seg, heq]

/-- Counterexample to C7 as stated: the interleave step samples from the full
similar-track set on every iteration (and with at most two similar tracks
appends all of them after every base track), so already-used similar tracks
recur.  With base tracks `b1, b2, b3` and similar tracks `d1, d2`, the result
repeats `d1, d2` after both `b2` and `b3` — the "not yet used" condition
fails and the assembled list has duplicates. -/
theorem radio_interleave_reuses_similar_counterexample :
    radio_assemble [⟨"b1"⟩, ⟨"b2"⟩, ⟨"b3"⟩] [⟨"d1"⟩, ⟨"d2"⟩]
        (fun _ => []) (fun r => r.take 25) true =
      [⟨"b1"⟩, ⟨"b2"⟩, ⟨"d1"⟩, ⟨"d2"⟩, ⟨"b3"⟩, ⟨"d1"⟩, ⟨"d2"⟩] ∧
    ¬ (radio_assemble [⟨"b1"⟩, ⟨"b2"⟩, ⟨"b3"⟩] [⟨"d1"⟩, ⟨"d2"⟩]
        (fun _ => []) (fun r => r.take 25) true).Nodup := by decide

/-- C7 (amended): with `is-initial`, at most 5 base tracks are sampled and
the result begins with the first sampled base track, followed, for each
remaining base track, by that base track and up to two similar tracks
sampled from the full similar set (repeats across base tracks can occur),
then by extra similar tracks. -/
theorem radio_initial_interleave_amended
    (available dynamic : List Track) (sample_base : Nat → List Track)
    (pick2 : Nat → List Track) (pick_final : List Track → List Track)
    (b0 : Track) (rest : List Track)
    (hbase : sample_base (min 5 available.length) = b0 :: rest)
    (hblen : (sample_base (min 5 available.length)).length =
      min 5 available.length)
    (hpick : ∀ i, dynamic.length > 2 →
      (pick2 i).length = 2 ∧ ∀ t ∈ pick2 i, t ∈ dynamic)
    (hfinal : ∀ l, ∀ t ∈ pick_final l, t ∈ l) :
    (b0 :: rest).length ≤ 5 ∧
    (get_radio_tracks available dynamic sample_base pick2 pick_final
      true).head? = some b0 ∧
    ∃ sims extra, sims.length = rest.length ∧
      (∀ l ∈ sims, l.length ≤ 2 ∧ ∀ t ∈ l, t ∈ dynamic) ∧
      (∀ t ∈ extra, t ∈ dynamic) ∧
      get_radio_tracks available dynamic sample_base pick2 pick_final true =
        b0 :: (interleave_seg rest sims ++ extra) := by
  obtain ⟨sims, hslen, hsprop, hseq⟩ :=
    radio_interleave_segments dynamic pick2 hpick rest 0
  have h5 : (b0 :: rest).length ≤ 5 := by
    rw [← hbase, hblen]
    exact Nat.min_le_left _ _
  have hr : get_radio_tracks available dynamic sample_base pick2 pick_final
      true =
      (if (dynamic.filter (fun t =>
          ¬ (t ∈ b0 :: radio_interleave dynamic pick2 0 rest))).isEmpty then
        b0 :: radio_interleave dynamic pick2 0 rest
      else
        (b0 :: radio_interleave dynamic pick2 0 rest) ++
          pick_final (dynamic.filter (fun t =>
            ¬ (t ∈ b0 :: radio_interleave dynamic pick2 0 rest)))) := by
    simp only [get_radio_tracks, hbase, radio_assemble]
    simp
  by_cases hrem : (dynamic.filter (fun t =>
      ¬ (t ∈ b0 :: radio_interleave dynamic pick2 0 rest))).isEmpty
  · refine ⟨h5, ?_, sims, [], hslen, hsprop, by simp, ?_⟩
    · rw [hr, if_pos hrem]
      rfl
    · rw [hr, if_pos hrem, hseq]
      simp
  · refine ⟨h5, ?_, sims, pick_final (dynamic.filter (fun t =>
      ¬ (t ∈ b0 :: radio_interleave dynamic pick2 0 rest))), hslen, hsprop,
      ?_, ?_⟩
    · rw [hr, if_neg hrem]
      rfl
    · intro t ht
      have := hfinal _ t ht
      exact (List.mem_filter.mp this).1
    · rw [hr, if_neg hrem, hseq]
      simp

/-- Witness for C7 (amended): two sampled base tracks and three similar
tracks produce the seeded interleave shape. -/
theorem radio_initial_interleave_amended_witness :
    ((⟨"b1"⟩ : Track) :: [⟨"b2"⟩]).length ≤ 5 ∧
    (get_radio_tracks [⟨"b1"⟩, ⟨"b2"⟩] [⟨"d1"⟩, ⟨"d2"⟩, ⟨"d3"⟩]
      (fun k => List.take k [⟨"b1"⟩, ⟨"b2"⟩]) (fun _ => [⟨"d1"⟩, ⟨"d2"⟩])
      (fun r => r.take 25) true).head? = some ⟨"b1"⟩ ∧
    ∃ sims extra, sims.length = ([⟨"b2"⟩] : List Track).length ∧
      (∀ l ∈ sims, l.length ≤ 2 ∧
        ∀ t ∈ l, t ∈ ([⟨"d1"⟩, ⟨"d2"⟩, ⟨"d3"⟩] : List Track)) ∧
      (∀ t ∈ extra, t ∈ ([⟨"d1"⟩, ⟨"d2"⟩, ⟨"d3"⟩] : List Track)) ∧
      get_radio_tracks [⟨"b1"⟩, ⟨"b2"⟩] [⟨"d1"⟩, ⟨"d2"⟩, ⟨"d3"⟩]
        (fun k => List.take k [⟨"b1"⟩, ⟨"b2"⟩]) (fun _ => [⟨"d1"⟩, ⟨"d2"⟩])
        (fun r => r.take 25) true =
        ⟨"b1"⟩ :: (interleave_seg [⟨"b2"⟩] sims ++ extra) :=
  radio_initial_interleave_amended [⟨"b1"⟩, ⟨"b2"⟩] [⟨"d1"⟩, ⟨"d2"⟩, ⟨"d3"⟩]
    (fun k => List.take k [⟨"b1"⟩, ⟨"b2"⟩]) (fun _ => [⟨"d1"⟩, ⟨"d2"⟩])
    (fun r => r.take 25) ⟨"b1"⟩ [⟨"b2"⟩] rfl rfl
    (by
      intro i hd
      show ([⟨"d1"⟩, ⟨"d2"⟩] : List Track).length = 2 ∧
        ∀ t ∈ ([⟨"d1"⟩, ⟨"d2"⟩] : List Track),
          t ∈ ([⟨"d1"⟩, ⟨"d2"⟩, ⟨"d3"⟩] : List Track)
      decide)
    (fun _ _ ht => List.mem_of_mem_take ht)
